import Mathlib

/-!
Verification of `amr_kitchen/header_reader.py` (class `HeaderData`).

Shallow embedding conventions:
* Python `float` is modelled by `ℚ` (exact arithmetic; the numeric literals in
  plotfile headers are plain decimal literals, and `np.allclose` tolerances are
  modelled with their exact rational values rtol = 1/10^5, atol = 1/10^8).
* Python `int` is modelled by `ℤ` (arbitrary precision in both).
* A text file is a list of its lines (without the trailing newline character;
  `str.replace('\n','')` is therefore the identity in the model, and writing a
  string that ends in `"\n"` appends one line).
* The file system is an association list from paths to line lists; `open` of an
  absent path raises `IOError`.
* Fallible operations return `Except PyErr`; each `PyErr` constructor names the
  Python exception class raised at the corresponding source line.
-/

/-- Python exception classes that the code in `header_reader.py` can raise. -/
inductive PyErr where
  | valueError
  | indexError
  | assertionError
  | ioError
  | nameError
  | unsupportedOperation
  deriving Repr, DecidableEq

/-- `True` iff the first list is an initial segment of the second
(used to model substring search in `str.replace`). -/
def startsWithL : List Char → List Char → Bool
  | [], _ => true
  | _ :: _, [] => false
  | p :: ps, c :: cs => p = c && startsWithL ps cs

/-- Helper for `pySplit`: accumulate the current (reversed) token while
scanning the characters of a line. Models Python `str.split()` with no
argument: split on runs of whitespace, dropping empty tokens. -/
def splitWsAux : List Char → List Char → List String
  | [], cur => if cur = [] then [] else [String.mk cur.reverse]
  | c :: cs, cur =>
      if c.isWhitespace then
        if cur = [] then splitWsAux cs [] else String.mk cur.reverse :: splitWsAux cs []
      else splitWsAux cs (c :: cur)

/-- Python `s.split()` (no separator argument). -/
def pySplit (s : String) : List String := splitWsAux s.data []

/-- Helper for `splitChar`: Python `s.split(sep)` for a one-character
separator keeps empty tokens. -/
def splitCharAux (sep : Char) : List Char → List Char → List String
  | [], cur => [String.mk cur.reverse]
  | c :: cs, cur =>
      if c = sep then String.mk cur.reverse :: splitCharAux sep cs []
      else splitCharAux sep cs (c :: cur)

/-- Python `s.split(sep)` for a single-character separator. -/
def splitChar (sep : Char) (s : String) : List String := splitCharAux sep s.data []

/-- Python `s.replace(c, '')` for a single character `c`. -/
def removeChar (c : Char) (s : String) : String := String.mk (s.data.filter (· ≠ c))

/-- Fuelled helper for `removeSub` (fuel = length of the scanned list, so the
recursion is structural on the fuel). -/
def removeSubAux (pat : List Char) : ℕ → List Char → List Char
  | 0, _ => []
  | _ + 1, [] => []
  | fuel + 1, c :: cs =>
      if startsWithL pat (c :: cs) then removeSubAux pat fuel ((c :: cs).drop pat.length)
      else c :: removeSubAux pat fuel cs

/-- Python `s.replace(pat, '')` for a non-empty pattern `pat`. -/
def removeSub (pat : String) (s : String) : String :=
  String.mk (removeSubAux pat.data s.data.length s.data)

/-- Characters of `s` with leading and trailing whitespace removed
(Python `int`/`float` accept surrounding whitespace). -/
def pyStrip (s : String) : List Char :=
  ((s.data.dropWhile Char.isWhitespace).reverse.dropWhile Char.isWhitespace).reverse

/-- Parse a non-empty all-digit character list, most significant digit first. -/
def digitsToNatAux : ℕ → List Char → Option ℕ
  | acc, [] => some acc
  | acc, c :: cs => if c.isDigit then digitsToNatAux (acc * 10 + (c.toNat - 48)) cs else none

/-- Parse a digit string; `none` when empty or containing a non-digit. -/
def digitsToNat (l : List Char) : Option ℕ :=
  if l = [] then none else digitsToNatAux 0 l

/-- Python `int(s)` on decimal literals; a failure is a `ValueError`. -/
def pyInt? (s : String) : Except PyErr ℤ :=
  match pyStrip s with
  | '-' :: rest =>
      match digitsToNat rest with
      | some n => .ok (-(n : ℤ))
      | none => .error .valueError
  | '+' :: rest =>
      match digitsToNat rest with
      | some n => .ok (n : ℤ)
      | none => .error .valueError
  | l =>
      match digitsToNat l with
      | some n => .ok (n : ℤ)
      | none => .error .valueError

/-- Unsigned part of `pyFloat?`: `"d"`, `"d.f"`, `"d."` or `".f"`. -/
def pyFloatPos (l : List Char) : Option ℚ :=
  let ip := l.takeWhile (· ≠ '.')
  match l.dropWhile (· ≠ '.') with
  | [] => (digitsToNat ip).map (fun n => (n : ℚ))
  | _ :: fp =>
      if fp.any (· = '.') then none
      else if ip = [] ∧ fp = [] then none
      else
        match (if ip = [] then some 0 else digitsToNat ip),
              (if fp = [] then some 0 else digitsToNat fp) with
        | some ni, some nf => some ((ni : ℚ) + (nf : ℚ) / ((10 : ℚ) ^ fp.length))
        | _, _ => none

/-- Python `float(s)` on the plain decimal literals that appear in AMReX
header files; a failure is a `ValueError`. -/
def pyFloat? (s : String) : Except PyErr ℚ :=
  match pyStrip s with
  | '-' :: rest =>
      match pyFloatPos rest with
      | some q => .ok (-q)
      | none => .error .valueError
  | '+' :: rest =>
      match pyFloatPos rest with
      | some q => .ok q
      | none => .error .valueError
  | l =>
      match pyFloatPos l with
      | some q => .ok q
      | none => .error .valueError

/-- `os.path.join(a, b)` for relative paths. -/
def pyJoin (a b : String) : String :=
  if a = "" then b
  else if a.data.getLast? = some '/' then a ++ b
  else a ++ "/" ++ b

/-- Python `sep.join(parts)`. -/
def joinSep (sep : String) : List String → String
  | [] => ""
  | [x] => x
  | x :: y :: xs => x ++ sep ++ joinSep sep (y :: xs)

/-- The model of the directory tree: a path-to-lines association list. -/
def lookupFs (fs : List (String × List String)) (p : String) : Option (List String) :=
  match fs with
  | [] => none
  | (q, ls) :: rest => if q = p then some ls else lookupFs rest p

/-- Python `dict` insertion `d[k] = v`: replace in place if `k` is present,
otherwise append (insertion order is preserved, duplicates collapse). -/
def dictInsert (d : List (String × ℤ)) (k : String) (v : ℤ) : List (String × ℤ) :=
  match d with
  | [] => [(k, v)]
  | (k', v') :: rest => if k' = k then (k, v) :: rest else (k', v') :: dictInsert rest k v

/-- Python/NumPy sequence indexing `l[i]` with negative-index wrap-around;
out of range raises `IndexError`. -/
def pyGet (l : List α) (i : ℤ) : Except PyErr α :=
  let j := if i < 0 then i + l.length else i
  if j < 0 then .error .indexError
  else
    match l.get? j.toNat with
    | some x => .ok x
    | none => .error .indexError

/-- Python slice `l[:k]` (also for negative `k`). -/
def pySliceTo (l : List α) (k : ℤ) : List α :=
  if k < 0 then l.take (l.length + k).toNat else l.take k.toNat

/-- Effectful map over a list in the `Except` monad, first error wins
(models a Python loop that appends to an accumulator). -/
def exceptMap (f : α → Except PyErr β) : List α → Except PyErr (List β)
  | [] => .ok []
  | x :: xs =>
      match f x with
      | .error e => .error e
      | .ok y =>
          match exceptMap f xs with
          | .error e => .error e
          | .ok ys => .ok (y :: ys)

/-- `file.readline()`: the next line, or `""` at end of file. -/
def readline : List String → String × List String
  | [] => ("", [])
  | l :: ls => (l, ls)

/-- The per-level content of `HeaderData.cells` (`read_cell_headers`):
`{"indexes": ..., "files": ..., "offsets": ...}`. -/
structure LvCells where
  indexes : List (List (List ℤ))
  files : List String
  offsets : List ℤ
  deriving Repr, DecidableEq, Inhabited

/-- The attributes of a `HeaderData` instance after `__init__`.
`cells` is `[]` when the instance was built with `header_only=True`
(in Python the attribute is then simply absent). -/
structure HeaderData where
  pfile : String
  version : String
  nvars : ℤ
  fields : List (String × ℤ)
  ndims : ℤ
  time : ℚ
  max_level : ℤ
  geo_low : List ℚ
  geo_high : List ℚ
  factors : List ℤ
  grid_sizes : List (List ℤ)
  step_numbers : List ℤ
  dx : List (List ℚ)
  sys_coord : String
  limit_level : ℤ
  npoints : List ℤ
  cell_paths : List String
  step : String
  box_centers : List (List (List ℚ))
  boxes : List (List (List (List ℚ)))
  cells : List LvCells
  deriving Repr, DecidableEq, Inhabited

/-- One box of `read_boxes`: `ndims` lines `"lo hi"`, producing the center
point `lo + (hi - lo)/2` per axis and the bound pair `[lo, hi]` per axis. -/
def readBoxDims : ℕ → List String → Except PyErr ((List ℚ × List (List ℚ)) × List String)
  | 0, r => .ok (([], []), r)
  | n + 1, r =>
      let (line, r') := readline r
      match exceptMap pyFloat? (pySplit line) with
      | .error e => .error e
      | .ok [lo, hi] =>
          match readBoxDims n r' with
          | .error e => .error e
          | .ok ((point, box), r'') =>
              .ok (((lo + (hi - lo) / 2) :: point, [lo, hi] :: box), r'')
      | .ok _ => .error .valueError

/-- The `for i in range(n_cells)` loop of `read_boxes` at one level. -/
def readLvBoxes (ndims : ℕ) : ℕ → List String →
    Except PyErr ((List (List ℚ) × List (List (List ℚ))) × List String)
  | 0, r => .ok (([], []), r)
  | n + 1, r =>
      match readBoxDims ndims r with
      | .error e => .error e
      | .ok ((point, box), r') =>
          match readLvBoxes ndims n r' with
          | .error e => .error e
          | .ok ((pts, bxs), r'') => .ok ((point :: pts, box :: bxs), r'')

/-- The `for lv in range(self.limit_level + 1)` loop of `read_boxes`.
The first `ℕ` argument is the number of levels still to read, the second the
expected level index `lv`; the `String` threads the `self.step` attribute.
Result: `(npoints, cell_paths, step, points, boxes)` plus unread lines. -/
def readLevels (ndims : ℕ) :
    ℕ → ℕ → String → List String →
    Except PyErr ((List ℤ × List String × String ×
                   List (List (List ℚ)) × List (List (List (List ℚ)))) × List String)
  | 0, _, step, r => .ok (([], [], step, [], []), r)
  | n + 1, lv, step, r =>
      -- current_level, n_cells, _ = [n for n in hfile.readline().split()]
      let (line, r1) := readline r
      match pySplit line with
      | [t1, t2, _] =>
          match pyInt? t1 with
          | .error e => .error e
          | .ok current_level =>
              match pyInt? t2 with
              | .error e => .error e
              | .ok n_cells =>
                  -- store the lowest level step number
                  let (sline, r2) := readline r1
                  let step' := if current_level = 0 then sline else step
                  -- sanity check: assert current_level == lv
                  if current_level = (lv : ℤ) then
                    match readLvBoxes ndims n_cells.toNat r2 with
                    | .error e => .error e
                    | .ok ((lv_points, lv_boxes), r3) =>
                        let (pline, r4) := readline r3
                        match readLevels ndims n (lv + 1) step' r4 with
                        | .error e => .error e
                        | .ok ((nps, cps, stepF, pts, bxs), r5) =>
                            .ok ((n_cells :: nps, pline :: cps, stepF,
                                  lv_points :: pts, lv_boxes :: bxs), r5)
                  else .error .assertionError
      | _ => .error .valueError

/-- `HeaderData.read_boxes`: read the AMR box geometry from the lines that
remain after the fixed part of the `Header` file. -/
def read_boxes (limit_level ndims : ℤ) (r : List String) :
    Except PyErr ((List ℤ × List String × String ×
                   List (List (List ℚ)) × List (List (List (List ℚ)))) × List String) :=
  readLevels ndims.toNat (limit_level + 1).toNat 0 "" r

/-- One index-window line of a `_H` file:
`start, stop, _ = line.split()` followed by integer parsing of the two
comma-separated tuples with their parentheses stripped. -/
def parseWindowLine (line : String) : Except PyErr (List (List ℤ)) :=
  match pySplit line with
  | [start, stop, _] =>
      match exceptMap pyInt? (splitChar ',' (removeChar ')' (removeChar '(' start))) with
      | .error e => .error e
      | .ok s =>
          match exceptMap pyInt? (splitChar ',' (removeChar ')' (removeChar '(' stop))) with
          | .error e => .error e
          | .ok t => .ok [s, t]
  | _ => .error .valueError

/-- The `for _ in range(n_cells)` index-window loop of `read_cell_headers`. -/
def readWindows : ℕ → List String → Except PyErr (List (List (List ℤ)) × List String)
  | 0, r => .ok ([], r)
  | n + 1, r =>
      let (line, r') := readline r
      match parseWindowLine line with
      | .error e => .error e
      | .ok w =>
          match readWindows n r' with
          | .error e => .error e
          | .ok (ws, r'') => .ok (w :: ws, r'')

/-- One pointer line of a `_H` file: `_, file, offset = line.split()`;
the stored path is `os.path.join(pfile, cell_path.replace('Cell', ''), file)`. -/
def parsePointerLine (pfile cell_path line : String) : Except PyErr (String × ℤ) :=
  match pySplit line with
  | [_, file, offset] =>
      match pyInt? offset with
      | .error e => .error e
      | .ok off => .ok (pyJoin (pyJoin pfile (removeSub "Cell" cell_path)) file, off)
  | _ => .error .valueError

/-- The `for _ in range(n_cells)` pointer loop of `read_cell_headers`. -/
def readPointers (pfile cell_path : String) :
    ℕ → List String → Except PyErr ((List String × List ℤ) × List String)
  | 0, r => .ok (([], []), r)
  | n + 1, r =>
      let (line, r') := readline r
      match parsePointerLine pfile cell_path line with
      | .error e => .error e
      | .ok (f, off) =>
          match readPointers pfile cell_path n r' with
          | .error e => .error e
          | .ok ((fls, offs), r'') => .ok ((f :: fls, off :: offs), r'')

/-- The body of the `with open(cfile_path) as cfile:` block of
`read_cell_headers` for a single level.  The first `assert` compares the
file's field-count line against `len(self.fields)`; the spec names this
failure `SchemaMismatch`.  The second `assert` re-checks the cell count
(spec: `StructureMismatch`). -/
def read_cell_headers_level (pfile : String) (fields : List (String × ℤ))
    (cell_path : String) (clines : List String) : Except PyErr LvCells :=
  -- Skip 2 lines
  let (_, r1) := readline clines
  let (_, r2) := readline r1
  -- Are we good: assert int(cfile.readline()) == len(self.fields)
  let (l3, r3) := readline r2
  match pyInt? l3 with
  | .error e => .error e
  | .ok k =>
      if k = (fields.length : ℤ) then
        let (_, r4) := readline r3
        -- n_cells = int(cfile.readline().split()[0].replace('(', ''))
        let (l5, r5) := readline r4
        match pySplit l5 with
        | [] => .error .indexError
        | t :: _ =>
            match pyInt? (removeChar '(' t) with
            | .error e => .error e
            | .ok n_cells =>
                match readWindows n_cells.toNat r5 with
                | .error e => .error e
                | .ok (indexes, r6) =>
                    let (_, r7) := readline r6
                    -- assert n_cells == int(cfile.readline())
                    let (l8, r8) := readline r7
                    match pyInt? l8 with
                    | .error e => .error e
                    | .ok m =>
                        if n_cells = m then
                          match readPointers pfile cell_path n_cells.toNat r8 with
                          | .error e => .error e
                          | .ok ((files, offsets), _) =>
                              .ok ⟨indexes, files, offsets⟩
                        else .error .assertionError
      else .error .assertionError

/-- The `for i in range(self.limit_level + 1)` loop of `read_cell_headers`:
open `<pfile>/<cell_paths[i]>_H` and parse it.  First argument: levels still
to read; second: the current level index `i`. -/
def read_cell_headers_loop (fs : List (String × List String)) (pfile : String)
    (fields : List (String × ℤ)) (cell_paths : List String) :
    ℕ → ℕ → Except PyErr (List LvCells)
  | 0, _ => .ok []
  | n + 1, i =>
      match pyGet cell_paths (i : ℤ) with
      | .error e => .error e
      | .ok cp =>
          match lookupFs fs (pyJoin pfile (cp ++ "_H")) with
          | none => .error .ioError
          | some clines =>
              match read_cell_headers_level pfile fields cp clines with
              | .error e => .error e
              | .ok lvcells =>
                  match read_cell_headers_loop fs pfile fields cell_paths n (i + 1) with
                  | .error e => .error e
                  | .ok rest => .ok (lvcells :: rest)

/-- `HeaderData.read_cell_headers`. -/
def read_cell_headers (fs : List (String × List String)) (pfile : String)
    (fields : List (String × ℤ)) (cell_paths : List String) (limit_level : ℤ) :
    Except PyErr (List LvCells) :=
  read_cell_headers_loop fs pfile fields cell_paths (limit_level + 1).toNat 0

/-- The slice `[1::3]` used on the grid-size descriptor line. -/
def sliceStep3From1 (l : List α) : List α :=
  (l.enum.filter (fun p => 1 ≤ p.1 ∧ (p.1 - 1) % 3 = 0)).map Prod.snd

/-- The `range(nvars)` field-name loop of `__init__`:
`self.fields[hfile.readline().replace('\n', '')] = i`. -/
def readFields : ℕ → List (String × ℤ) → ℤ → List String → List (String × ℤ) × List String
  | 0, d, _, r => (d, r)
  | n + 1, d, i, r =>
      let (line, r') := readline r
      readFields n (dictInsert d line i) (i + 1) r'

/-- The `range(self.max_level + 1)` resolution-line loop of `__init__`. -/
def readResolutions : ℕ → List String → Except PyErr (List (List ℚ) × List String)
  | 0, r => .ok ([], r)
  | n + 1, r =>
      let (line, r') := readline r
      match exceptMap pyFloat? (pySplit line) with
      | .error e => .error e
      | .ok fl =>
          match readResolutions n r' with
          | .error e => .error e
          | .ok (rest, r'') => .ok (fl :: rest, r'')

/-- `HeaderData.__init__(plotfile, limit_level, header_only)` over the
file-system model `fs`. -/
def HeaderData.init (fs : List (String × List String)) (plotfile : String)
    (limit_level? : Option ℤ) (header_only : Bool) : Except PyErr HeaderData := do
  let hlines ← match lookupFs fs (pyJoin plotfile "Header") with
    | none => .error PyErr.ioError
    | some h => .ok h
  let (version, r1) := readline hlines
  -- field names
  let (l2, r2) := readline r1
  let nvars ← pyInt? l2
  let (fields, r3) := readFields nvars.toNat [] 0 r2
  -- General data
  let (l4, r4) := readline r3
  let ndims ← pyInt? l4
  let (l5, r5) := readline r4
  let time ← pyFloat? l5
  let (l6, r6) := readline r5
  let max_level ← pyInt? l6
  let (l7, r7) := readline r6
  let geo_low ← exceptMap pyFloat? (pySplit l7)
  let (l8, r8) := readline r7
  let geo_high ← exceptMap pyFloat? (pySplit l8)
  let (l9, r9) := readline r8
  let factors ← exceptMap pyInt? (pySplit l9)
  let (l10, r10) := readline r9
  let grid_sizes ← exceptMap
    (fun block => do
      let arr ← exceptMap pyInt? (splitChar ',' (removeChar ')' (removeChar '(' block)))
      pure (arr.map (· + 1)))
    (sliceStep3From1 (pySplit l10))
  let (l11, r11) := readline r10
  let step_numbers ← exceptMap pyInt? (pySplit l11)
  -- Grid resolutions
  let (dx, r12) ← readResolutions (max_level + 1).toNat r11
  -- Coordinate system
  let (sys_coord, r13) := readline r12
  -- Sanity check: assert 0 == int(hfile.readline())
  let (l14, r14) := readline r13
  let sanity ← pyInt? l14
  if 0 = sanity then
    -- Define the max level we read
    let limit_level := match limit_level? with
      | none => max_level
      | some l => l
    -- Read the box geometry
    let ((npoints, cell_paths, step, box_centers, boxes), _) ←
      read_boxes limit_level ndims r14
    -- Read the cell data
    let cells ← if header_only then pure ([] : List LvCells)
      else read_cell_headers fs plotfile fields cell_paths limit_level
    pure { pfile := plotfile, version := version, nvars := nvars, fields := fields,
           ndims := ndims, time := time, max_level := max_level,
           geo_low := geo_low, geo_high := geo_high, factors := factors,
           grid_sizes := grid_sizes, step_numbers := step_numbers, dx := dx,
           sys_coord := sys_coord, limit_level := limit_level,
           npoints := npoints, cell_paths := cell_paths, step := step,
           box_centers := box_centers, boxes := boxes, cells := cells }
  else .error PyErr.assertionError

/-- `np.array` on a triply nested list: the shape, or `ValueError` when the
nesting is ragged.  `[]` gets shape `(0, 0, 0)` (the claims only exercise
rank-3 data, where this agrees with NumPy). -/
def shape3 (a : List (List (List ℚ))) : Except PyErr (ℕ × ℕ × ℕ) :=
  match a with
  | [] => .ok (0, 0, 0)
  | row0 :: _ =>
      if a.all (fun row => row.length = row0.length) then
        match row0 with
        | [] => .ok (a.length, 0, 0)
        | e0 :: _ =>
            if a.all (fun row => row.all (fun e => e.length = e0.length)) then
              .ok (a.length, row0.length, e0.length)
            else .error .valueError
      else .error .valueError

/-- NumPy broadcasting of one dimension: sizes must agree or one must be 1. -/
def bdim (n m : ℕ) : Except PyErr ℕ :=
  if n = m then .ok n else if n = 1 then .ok m else if m = 1 then .ok n
  else .error .valueError

/-- Index into a broadcast dimension: a size-1 dimension is repeated. -/
def bidx (sz i : ℕ) : ℕ := if sz = 1 then 0 else i

/-- Element access in a rank-3 nested list (indices in range by construction). -/
def idx3 (a : List (List (List ℚ))) (i j k : ℕ) : ℚ :=
  ((a.getD i []).getD j []).getD k 0

/-- `np.isclose` with the default tolerances:
`|a - b| <= atol + rtol * |b|`, rtol = 1e-05, atol = 1e-08. -/
def npIsclose (x y : ℚ) : Bool :=
  decide (|x - y| ≤ 1 / 100000000 + 1 / 100000 * |y|)

/-- `np.allclose` on two rank-3 nested lists: convert both to arrays
(`ValueError` on ragged data), broadcast the shapes (`ValueError` when not
broadcastable), then require every pointwise comparison to be close. -/
def allclose3 (a b : List (List (List ℚ))) : Except PyErr Bool :=
  match shape3 a, shape3 b with
  | .error e, _ => .error e
  | _, .error e => .error e
  | .ok (n1, d1, e1), .ok (n2, d2, e2) =>
      match bdim n1 n2, bdim d1 d2, bdim e1 e2 with
      | .ok n, .ok d, .ok e =>
          .ok ((List.range n).all fun i =>
                 (List.range d).all fun j =>
                   (List.range e).all fun k =>
                     npIsclose (idx3 a (bidx n1 i) (bidx d1 j) (bidx e1 k))
                               (idx3 b (bidx n2 i) (bidx d2 j) (bidx e2 k)))
      | .error e, _, _ => .error e
      | _, .error e, _ => .error e
      | _, _, .error e => .error e

/-- Integer index windows viewed as rational arrays (NumPy compares the
integer `indexes` arrays with `np.allclose`, which works on their values). -/
def q3 (x : List (List (List ℤ))) : List (List (List ℚ)) :=
  x.map (fun a => a.map (fun b => b.map (fun z => (z : ℚ))))

/-- A `for lv in ...: if not cmp(lv): return False` loop of `__eq__`:
first error escapes, first failed comparison yields `False`. -/
def cmpLoop (f : ℕ → Except PyErr Bool) : List ℕ → Except PyErr Bool
  | [] => .ok true
  | lv :: rest =>
      match f lv with
      | .error e => .error e
      | .ok true => cmpLoop f rest
      | .ok false => .ok false

/-- One box comparison of `__eq__`:
`np.allclose(self.boxes[lv], other.boxes[lv])`. -/
def eqBoxStep (self other : HeaderData) (lv : ℕ) : Except PyErr Bool :=
  match pyGet self.boxes (lv : ℤ) with
  | .error e => .error e
  | .ok b1 =>
      match pyGet other.boxes (lv : ℤ) with
      | .error e => .error e
      | .ok b2 => allclose3 b1 b2

/-- One index comparison of `__eq__`:
`np.allclose(self.cells[lv]['indexes'], other.cells[lv]['indexes'])`. -/
def eqIdxStep (self other : HeaderData) (lv : ℕ) : Except PyErr Bool :=
  match pyGet self.cells (lv : ℤ) with
  | .error e => .error e
  | .ok c1 =>
      match pyGet other.cells (lv : ℤ) with
      | .error e => .error e
      | .ok c2 => allclose3 (q3 c1.indexes) (q3 c2.indexes)

/-- `HeaderData.__eq__`: the plotfile-compatibility comparison. -/
def HeaderData.eqHD (self other : HeaderData) : Except PyErr Bool :=
  -- Fail if the maximum AMR level is different
  if self.limit_level ≠ other.limit_level then .ok false
  else
    -- Compare boxes
    match cmpLoop (eqBoxStep self other) (List.range (self.limit_level + 1).toNat) with
    | .error e => .error e
    | .ok false => .ok false
    | .ok true =>
        -- Compare cell indexes
        match cmpLoop (eqIdxStep self other) (List.range (self.limit_level + 1).toNat) with
        | .error e => .error e
        | .ok false => .ok false
        | .ok true => .ok true

/-- Strict lexicographic order on character lists by code point (the order
NumPy uses to sort an array of strings). -/
def charListLt : List Char → List Char → Bool
  | [], [] => false
  | [], _ :: _ => true
  | _ :: _, [] => false
  | c :: cs, d :: ds =>
      if c.toNat < d.toNat then true
      else if d.toNat < c.toNat then false
      else charListLt cs ds

/-- Strict lexicographic order on strings by code point. -/
def strLt (a b : String) : Bool := charListLt a.data b.data

/-- Insert into a sorted duplicate-free list, keeping it sorted and
duplicate-free (building block of `npUnique`). -/
def insSD (x : String) : List String → List String
  | [] => [x]
  | y :: ys =>
      if x = y then y :: ys
      else if strLt x y then x :: y :: ys
      else y :: insSD x ys

/-- `np.unique` on an array of strings: the distinct values in ascending
lexicographic order. -/
def npUnique (l : List String) : List String := l.foldr insSD []

/-- `HeaderData.bybinfile(lv)`: the sequence of `(bf, offsets[bf_indexes],
indexes[bf_indexes])` triples yielded by the generator, one per element of
`np.unique(bfiles)`, where `bf_indexes` are the positions with file `bf`. -/
def HeaderData.bybinfile (h : HeaderData) (lv : ℤ) :
    Except PyErr (List (String × List ℤ × List (List (List ℤ)))) :=
  match pyGet h.cells lv with
  | .error e => .error e
  | .ok cl =>
      let bfiles := cl.files
      let indexes := cl.indexes
      let offsets := cl.offsets
      let box_indexes := List.range bfiles.length
      .ok ((npUnique bfiles).map (fun bf =>
        let bf_indexes := box_indexes.filter (fun i => bfiles.getD i "" = bf)
        (bf, bf_indexes.map (fun i => offsets.getD i 0),
             bf_indexes.map (fun i => indexes.getD i []))))

/-- The first-appearance order of the distinct elements of a list
(what the spec asserts about the group order of `bybinfile`). -/
def firstOccurAux : List String → List String → List String
  | _, [] => []
  | seen, x :: xs =>
      if x ∈ seen then firstOccurAux seen xs else x :: firstOccurAux (x :: seen) xs

/-- Distinct elements in order of first appearance. -/
def firstOccur (l : List String) : List String := firstOccurAux [] l

/-- `np.linspace(a, b, n)` with the default `endpoint=True`. -/
def npLinspace (a b : ℚ) (n : ℤ) : Except PyErr (List ℚ) :=
  if n < 0 then .error .valueError
  else if n.toNat = 0 then .ok []
  else if n.toNat = 1 then .ok [a]
  else .ok ((List.range n.toNat).map (fun i => a + (b - a) * i / ((n.toNat : ℚ) - 1)))

/-- The body of the `for lv in range(self.limit_level + 1)` loop of
`boxesfromindexes`.  As in the source (lines 224-232), `xgrid`, `ygrid` and
`zgrid` are all built from axis 0 of the level geometry
(`geo_low[0]`, `geo_high[0]`, `dx[lv][0]`, `grid_sizes[lv][0]`), and the
half-widths `hdy`, `hdz` read `dx[lv][1]` and `dx[lv][2]`. -/
def boxesfromindexes_level (h : HeaderData) (indexes : List (List (List (List ℤ))))
    (lv : ℕ) : Except PyErr (List (List (List ℚ))) := do
  let glow0 ← pyGet h.geo_low 0
  let ghigh0 ← pyGet h.geo_high 0
  let dxlv ← pyGet h.dx (lv : ℤ)
  let dx0 ← pyGet dxlv 0
  let gslv ← pyGet h.grid_sizes (lv : ℤ)
  let gs0 ← pyGet gslv 0
  let xgrid ← npLinspace (glow0 + dx0 / 2) (ghigh0 - dx0 / 2) gs0
  let ygrid ← npLinspace (glow0 + dx0 / 2) (ghigh0 - dx0 / 2) gs0
  let zgrid ← npLinspace (glow0 + dx0 / 2) (ghigh0 - dx0 / 2) gs0
  let hdx := dx0 / 2
  let dx1 ← pyGet dxlv 1
  let hdy := dx1 / 2
  let dx2 ← pyGet dxlv 2
  let hdz := dx2 / 2
  let lvIdx ← pyGet indexes (lv : ℤ)
  exceptMap (fun idx => do
      let idx0 ← pyGet idx 0
      let idx1 ← pyGet idx 1
      -- box_x = [xgrid[idx[0][0]] - hdx, xgrid[idx[1][0]] + hdx]
      let i00 ← pyGet idx0 0
      let x0 ← pyGet xgrid i00
      let i10 ← pyGet idx1 0
      let x1 ← pyGet xgrid i10
      let box_x := [x0 - hdx, x1 + hdx]
      -- box_y = [ygrid[idx[0][1]] - hdy, ygrid[idx[1][1]] + hdy]
      let i01 ← pyGet idx0 1
      let y0 ← pyGet ygrid i01
      let i11 ← pyGet idx1 1
      let y1 ← pyGet ygrid i11
      let box_y := [y0 - hdy, y1 + hdy]
      -- box_z = [zgrid[idx[0][2]] - hdz, zgrid[idx[1][2]] + hdz]
      let i02 ← pyGet idx0 2
      let z0 ← pyGet zgrid i02
      let i12 ← pyGet idx1 2
      let z1 ← pyGet zgrid i12
      let box_z := [z0 - hdz, z1 + hdz]
      pure [box_x, box_y, box_z])
    lvIdx

/-- `HeaderData.boxesfromindexes(indexes)`. -/
def HeaderData.boxesfromindexes (h : HeaderData)
    (indexes : List (List (List (List ℤ)))) :
    Except PyErr (List (List (List (List ℚ)))) :=
  exceptMap (boxesfromindexes_level h indexes) (List.range (h.limit_level + 1).toNat)

/-- Stand-in for Python's float formatting in f-strings (no theorem in this
file depends on the textual rendering of a float). -/
def qRepr (q : ℚ) : String := toString q.num ++ "/" ++ toString q.den

/-- `HeaderData.writehdrnewboxes(pfdir, boxes, fields)`.
The source opens `os.path.join(pfdir, 'Header', 'w')` — `'w'` is passed as a
*path component* and the mode defaults to `'r'` — so `open` raises
`FileNotFoundError` when that path does not exist, and otherwise the very
first `hfile.write(...)` raises `io.UnsupportedOperation` on the read-only
handle.  Either way no output is produced. -/
def HeaderData.writehdrnewboxes (_h : HeaderData) (fs : List (String × List String))
    (pfdir : String) (_boxes : List (List (List (List ℚ))))
    (_fields : List String) : Except PyErr (List String) :=
  match lookupFs fs (pyJoin (pyJoin pfdir "Header") "w") with
  | none => .error .ioError
  | some _ => .error .unsupportedOperation

/-- The sequence of `hfile.write` calls in the body of `writehdrnewboxes`
(lines 253-307), as they would execute on a writable handle; this isolates
where the emitted box bounds come from.  In the box loop the source executes
`box = self.boxes[lv][idx]` — `idx` is not bound anywhere in the function —
so the first iteration over a non-empty `boxes[lv]` raises `NameError`. -/
def writehdr_body (h : HeaderData) (boxes : List (List (List (List ℚ))))
    (fields : List String) : Except PyErr (List String) := do
  -- version, number of fields, field names
  let out0 := [h.version, toString fields.length] ++ fields
  -- dimension, time (unknown, written as 0.0), max level (= limit_level)
  let out1 := out0 ++ [toString h.ndims, "0.0", toString h.limit_level]
  -- lower and upper bounds
  let lo_list ← exceptMap (fun i => (pyGet h.geo_low (i : ℤ)).map qRepr)
      (List.range h.ndims.toNat)
  let hi_list ← exceptMap (fun i => (pyGet h.geo_high (i : ℤ)).map qRepr)
      (List.range h.ndims.toNat)
  let out2 := out1 ++ [joinSep " " lo_list, joinSep " " hi_list]
  -- refinement factors: self.factors[:self.limit_level]
  let out3 := out2 ++ [joinSep " " ((pySliceTo h.factors h.limit_level).map toString)]
  -- grid sizes, like ((0,0,0) (7,7,7) (0,0,0))
  let tuples ← exceptMap (fun lv => do
      let start := joinSep "," (List.replicate h.ndims.toNat "0")
      let gslv ← pyGet h.grid_sizes (lv : ℤ)
      let cente ← exceptMap (fun i => (pyGet gslv (i : ℤ)).map (fun g => toString (g - 1)))
          (List.range h.ndims.toNat)
      pure ("((" ++ start ++ ") (" ++ joinSep "," cente ++ ") (" ++ start ++ "))"))
    (List.range (h.limit_level + 1).toNat)
  let out4 := out3 ++ [joinSep " " tuples]
  -- by-level step numbers (all zero)
  let out5 := out4 ++ [joinSep " " (List.replicate (h.limit_level + 1).toNat "0")]
  -- grid resolutions
  let dxlines ← exceptMap (fun lv => do
      let dxlv ← pyGet h.dx (lv : ℤ)
      let ds ← exceptMap (fun i => (pyGet dxlv (i : ℤ)).map qRepr)
          (List.range h.ndims.toNat)
      pure (joinSep " " ds))
    (List.range (h.limit_level + 1).toNat)
  let out6 := out5 ++ dxlines
  -- coordinate system and the zero for parsing
  let out7 := out6 ++ [h.sys_coord, "0"]
  -- the boxes
  let outBoxes ← exceptMap (fun lv => do
      let lvBoxes ← pyGet boxes (lv : ℤ)
      let head := toString lv ++ " " ++ toString lvBoxes.length ++ " 0.0"
      -- for box in boxes[lv]:
      --     box = self.boxes[lv][idx]        <- NameError: idx is undefined
      match lvBoxes with
      | [] => pure [head, "0", "Level_" ++ toString lv ++ "/Cell"]
      | _ :: _ => Except.error PyErr.nameError)
    (List.range (h.limit_level + 1).toNat)
  pure (out7 ++ outBoxes.flatten)

deriving instance DecidableEq for Except

/-- `np.array` succeeds on this rank-3 nested list (it is rectangular). -/
def rectB (a : List (List (List ℚ))) : Bool :=
  match shape3 a with
  | .ok _ => true
  | .error _ => false

/-- The shape a fully parsed header always has: one boxes entry and one cells
entry per level `0..limit_level`, each convertible to a NumPy array
(`read_boxes` emits exactly `ndims` `[lo, hi]` pairs per box, and the `_H`
grammar gives every index window the same arity). -/
def selfWFb (h : HeaderData) : Bool :=
  decide ((h.limit_level + 1).toNat ≤ h.boxes.length) &&
  decide ((h.limit_level + 1).toNat ≤ h.cells.length) &&
  h.boxes.all rectB &&
  h.cells.all (fun c => rectB (q3 c.indexes))

/-- `Header` file of the C1 plotfile: a 2-D, single-level plotfile whose
level-0 descriptor announces 2 boxes. -/
def hdrLinesC1 : List String :=
  ["HyperCLaw-V1.1", "1", "density", "2", "0.0", "0",
   "0.0 0.0", "1.0 1.0", "", "((0,0) (7,7) (0,0))", "10",
   "0.125 0.125", "0", "0",
   "0 2 0.0", "10",
   "0.0 0.5", "0.0 1.0",
   "0.5 1.0", "0.0 1.0",
   "Level_0/Cell"]

/-- `Level_0/Cell_H` of the C1 plotfile: its own cell count line announces
only 1 cell (disagreeing with the Header's 2 boxes), consistently repeated,
with a matching field count of 1. -/
def cellLinesC1 : List String :=
  ["skipA", "skipB", "1", "skipC", "(1 0",
   "((0,0) (3,7) (0,0))", "", "1",
   "FabOnDisk: Cell_D_00000 0"]

/-- The C1 plotfile directory. -/
def fsC1 : List (String × List String) :=
  [("plt/Header", hdrLinesC1), ("plt/Level_0/Cell_H", cellLinesC1)]

/-- A consistent 2-D, single-level parsed header: geo_low=[0,0],
geo_high=[1,1], grid_size=[8,8], dx=[0.125,0.125], one box with index window
((0,0),(7,7)) — exactly the scenario of C9. -/
def baseHD : HeaderData :=
  { pfile := "plt", version := "HyperCLaw-V1.1", nvars := 1, fields := [("density", 0)],
    ndims := 2, time := 0, max_level := 0,
    geo_low := [0, 0], geo_high := [1, 1], factors := [],
    grid_sizes := [[8, 8]], step_numbers := [10], dx := [[1/8, 1/8]],
    sys_coord := "0", limit_level := 0, npoints := [1],
    cell_paths := ["Level_0/Cell"], step := "10",
    box_centers := [[[1/2, 1/2]]],
    boxes := [[[[0, 1], [0, 1]]]],
    cells := [⟨[[[0, 0], [7, 7]]], ["plt/Level_0/Cell_D_00000"], [0]⟩] }

/-- A 3-D, single-level header whose y-axis geometry (geo_high[1]=2,
dx[0][1]=1/4) differs from its x-axis geometry — the input that exposes the
axis-0 reuse in `boxesfromindexes`. -/
def hd2 : HeaderData :=
  { baseHD with
    ndims := 3
    geo_low := [0, 0, 0]
    geo_high := [1, 2, 1]
    grid_sizes := [[8, 8, 8]]
    dx := [[1/8, 1/4, 1/8]]
    boxes := [[[[0, 1], [0, 2], [0, 1]]]]
    cells := [⟨[[[0, 0, 0], [7, 7, 7]]], ["plt/Level_0/Cell_D_00000"], [0]⟩] }

/-- Left half box of the unit square. -/
def bxA : List (List ℚ) := [[0, 1/2], [0, 1]]

/-- Right half box of the unit square. -/
def bxB : List (List ℚ) := [[1/2, 1], [0, 1]]

/-- The full unit square box. -/
def bxC : List (List ℚ) := [[0, 1], [0, 1]]

/-- A header with 2 boxes at level 0. -/
def hd5a : HeaderData :=
  { baseHD with
    boxes := [[bxA, bxB]]
    cells := [⟨[[[0, 0], [3, 7]], [[4, 0], [7, 7]]], ["f1", "f1"], [0, 256]⟩] }

/-- A header with the same `limit_level` but 3 boxes at level 0. -/
def hd5b : HeaderData :=
  { baseHD with
    boxes := [[bxA, bxB, bxC]]
    cells := [⟨[[[0, 0], [3, 7]], [[4, 0], [7, 7]], [[0, 0], [7, 7]]],
               ["f1", "f1", "f2"], [0, 256, 0]⟩] }

/-- Same geometry as `hd5a` but with a different `limit_level`. -/
def hd6b : HeaderData := { hd5a with limit_level := 1 }

/-- A header whose level-0 cells reference the backing files `"b"` then
`"a"` — in that first-appearance order. -/
def hd7 : HeaderData :=
  { baseHD with
    cells := [⟨[[[0, 0], [3, 7]], [[4, 0], [7, 7]]], ["b", "a"], [10, 20]⟩] }

/-! ### Helper lemmas -/

lemma npIsclose_self (x : ℚ) : npIsclose x x = true := by
  unfold npIsclose
  rw [decide_eq_true_eq, sub_self, abs_zero]
  positivity

lemma bdim_self (n : ℕ) : bdim n n = .ok n := by simp [bdim]

lemma allclose3_refl (a : List (List (List ℚ))) (h : rectB a = true) :
    allclose3 a a = .ok true := by
  unfold rectB at h
  cases hs : shape3 a with
  | error e => rw [hs] at h; simp at h
  | ok s =>
      obtain ⟨n, d, e⟩ := s
      simp only [allclose3, hs, bdim_self, Except.ok.injEq, List.all_eq_true]
      intro i _ j _ k _
      exact npIsclose_self _

lemma pyGet_nat_ok (l : List α) (i : ℕ) (hi : i < l.length) :
    pyGet l (i : ℤ) = .ok (l.get ⟨i, hi⟩) := by
  unfold pyGet
  have h0 : ¬ ((i : ℤ) < 0) := by exact_mod_cast Nat.not_lt_zero i
  simp only [h0, if_false, Int.toNat_natCast]
  rw [List.get?_eq_get hi]

lemma cmpLoop_ok_of_forall (f : ℕ → Except PyErr Bool) (L : List ℕ)
    (hf : ∀ lv ∈ L, f lv = .ok true) : cmpLoop f L = .ok true := by
  induction L with
  | nil => rfl
  | cons x xs ih =>
      unfold cmpLoop
      rw [hf x (List.mem_cons_self x xs)]
      exact ih (fun lv hlv => hf lv (List.mem_cons_of_mem x hlv))

lemma charListLt_irrefl (l : List Char) : charListLt l l = false := by
  induction l with
  | nil => rfl
  | cons c cs ih => simp [charListLt, ih]

lemma char_eq_of_toNat_eq {x y : Char} (h : x.toNat = y.toNat) : x = y :=
  Char.eq_of_val_eq (UInt32.eq_of_toBitVec_eq (BitVec.eq_of_toNat_eq h))

lemma charListLt_trans {a b c : List Char} (hab : charListLt a b = true)
    (hbc : charListLt b c = true) : charListLt a c = true := by
  induction a generalizing b c with
  | nil =>
      cases b with
      | nil => simp [charListLt] at hab
      | cons y ys =>
          cases c with
          | nil => simp [charListLt] at hbc
          | cons z zs => rfl
  | cons x xs ih =>
      cases b with
      | nil => simp [charListLt] at hab
      | cons y ys =>
          cases c with
          | nil => simp [charListLt] at hbc
          | cons z zs =>
              unfold charListLt at hab hbc ⊢
              by_cases hxy : x.toNat < y.toNat
              · by_cases hyz : y.toNat < z.toNat
                · simp [Nat.lt_trans hxy hyz]
                · simp only [if_pos hxy] at hab
                  simp only [if_neg hyz] at hbc
                  by_cases hzy : z.toNat < y.toNat
                  · simp [hzy] at hbc
                  · have hxz : x.toNat < z.toNat := by omega
                    simp [hxz]
              · simp only [if_neg hxy] at hab
                by_cases hyx : y.toNat < x.toNat
                · simp [hyx] at hab
                · simp only [if_neg hyx] at hab
                  by_cases hyz : y.toNat < z.toNat
                  · have hxz : x.toNat < z.toNat := by omega
                    simp [hxz]
                  · simp only [if_neg hyz] at hbc
                    by_cases hzy : z.toNat < y.toNat
                    · simp [hzy] at hbc
                    · simp only [if_neg hzy] at hbc
                      have hxz : ¬ x.toNat < z.toNat := by omega
                      have hzx : ¬ z.toNat < x.toNat := by omega
                      simp only [if_neg hxz, if_neg hzx]
                      exact ih hab hbc

lemma charListLt_of_ne {a b : List Char} (hne : a ≠ b)
    (hab : charListLt a b = false) : charListLt b a = true := by
  induction a generalizing b with
  | nil =>
      cases b with
      | nil => exact absurd rfl hne
      | cons y ys => simp [charListLt] at hab
  | cons x xs ih =>
      cases b with
      | nil => rfl
      | cons y ys =>
          unfold charListLt at hab ⊢
          by_cases hxy : x.toNat < y.toNat
          · simp [hxy] at hab
          · simp only [if_neg hxy] at hab
            by_cases hyx : y.toNat < x.toNat
            · simp [hyx]
            · simp only [if_neg hyx] at hab
              have hxy' : x.toNat = y.toNat := by omega
              have hxy'' : x = y := char_eq_of_toNat_eq hxy'
              simp only [if_neg hyx, if_neg hxy]
              refine ih (fun hc => hne ?_) hab
              rw [hxy'', hc]

lemma strLt_irrefl (a : String) : strLt a a = false := charListLt_irrefl a.data

lemma strLt_trans {a b c : String} (hab : strLt a b = true) (hbc : strLt b c = true) :
    strLt a c = true := charListLt_trans hab hbc

lemma strLt_of_ne {a b : String} (hne : a ≠ b) (hab : strLt a b = false) :
    strLt b a = true := by
  refine charListLt_of_ne (fun hc => hne ?_) hab
  cases a; cases b
  exact congrArg String.mk hc

lemma ne_of_strLt {a b : String} (h : strLt a b = true) : a ≠ b := by
  intro hc
  rw [hc, strLt_irrefl] at h
  exact Bool.false_ne_true h

lemma mem_insSD (b x : String) (l : List String) :
    b ∈ insSD x l ↔ b = x ∨ b ∈ l := by
  induction l with
  | nil => simp [insSD]
  | cons y ys ih =>
      unfold insSD
      by_cases hxy : x = y
      · subst hxy
        simp only [if_pos rfl]
        constructor
        · intro hb; exact Or.inr hb
        · rintro (hb | hb)
          · subst hb; exact List.mem_cons_self b ys
          · exact hb
      · simp only [if_neg hxy]
        by_cases hlt : strLt x y
        · simp only [if_pos hlt, List.mem_cons]
        · simp only [if_neg hlt, List.mem_cons, ih]
          tauto

lemma sorted_insSD (x : String) (l : List String)
    (hs : l.Pairwise (fun a b => strLt a b = true)) :
    (insSD x l).Pairwise (fun a b => strLt a b = true) := by
  induction l with
  | nil => simp [insSD]
  | cons y ys ih =>
      unfold insSD
      by_cases hxy : x = y
      · simp only [if_pos hxy]; exact hs
      · simp only [if_neg hxy]
        by_cases hlt : strLt x y
        · simp only [if_pos hlt]
          refine List.Pairwise.cons ?_ hs
          intro z hz
          rcases List.mem_cons.mp hz with hz | hz
          · rw [hz]; exact hlt
          · exact strLt_trans hlt (List.rel_of_pairwise_cons hs hz)
        · simp only [if_neg hlt]
          have hyx : strLt y x = true :=
            strLt_of_ne hxy (Bool.eq_false_iff.mpr (fun hc => hlt hc))
          refine List.Pairwise.cons ?_ (ih (List.Pairwise.of_cons hs))
          intro z hz
          rcases (mem_insSD z x ys).mp hz with hz | hz
          · rw [hz]; exact hyx
          · exact List.rel_of_pairwise_cons hs hz

lemma sorted_npUnique (l : List String) :
    (npUnique l).Pairwise (fun a b => strLt a b = true) := by
  induction l with
  | nil => exact List.Pairwise.nil
  | cons x xs ih => exact sorted_insSD x (npUnique xs) ih

lemma mem_npUnique (b : String) (l : List String) :
    b ∈ npUnique l ↔ b ∈ l := by
  induction l with
  | nil => simp [npUnique]
  | cons x xs ih =>
      show b ∈ insSD x (npUnique xs) ↔ _
      rw [mem_insSD, ih, List.mem_cons]

lemma nodup_npUnique (l : List String) : (npUnique l).Nodup :=
  (sorted_npUnique l).imp (fun h => ne_of_strLt h)

/-! ### Claim theorems -/

unseal Rat.add Rat.mul Rat.inv Rat.sub

/-- C1: code bug — a plotfile whose `Header` declares 2 boxes at level 0
while its `Cell_H` file declares 1 cell is parsed successfully with
`header_only=False`, yielding 2 parsed boxes but only 1 parsed index window,
1 file path and 1 byte offset at level 0: no check ties the two grammars'
counts together, so the claimed equality fails on a successfully constructed
header. -/
theorem C1_box_window_count_divergence :
    (HeaderData.init fsC1 "plt" none false).map
      (fun h => ((h.boxes.getD 0 []).length,
                 (h.cells.getD 0 default).indexes.length,
                 (h.cells.getD 0 default).files.length,
                 (h.cells.getD 0 default).offsets.length))
      = .ok (2, 1, 1, 1) := by decide

/-- C2: code bug — `boxesfromindexes` builds `ygrid` (and `zgrid`) from axis
0's `geo_low`, `geo_high`, `dx` and `grid_sizes`.  On `hd2`, whose y-domain
is `[0, 2]` with `dx_y = 1/4`, the window `((0,0,0),(7,7,7))` yields
y-bounds `[-1/16, 17/16]` — the x-axis grid `[1/16 .. 15/16]` widened by the
y half-width `1/8` — instead of the y-axis's own `[0, 2]`. -/
theorem C2_ygrid_built_from_axis0 :
    hd2.boxesfromindexes [[[[0, 0, 0], [7, 7, 7]]]]
      = .ok [[[[0, 1], [-1/16, 17/16], [0, 1]]]] := by decide

/-- C3: code bug — the box loop of `writehdrnewboxes` executes
`box = self.boxes[lv][idx]` with `idx` unbound, so writing any non-empty
supplied box set raises `NameError` on the first iteration (and the
assignment that raises reads the cached `self.boxes`, not the `boxes`
argument).  The supplied bounds below, which differ from `baseHD.boxes`,
are never emitted. -/
theorem C3_supplied_boxes_never_written :
    writehdr_body baseHD [[[[0, 1/4], [0, 1]]]] ["density"] = .error .nameError ∧
    ([[[[0, (1:ℚ)/4], [0, 1]]]] : List (List (List (List ℚ)))) ≠ baseHD.boxes :=
  ⟨by decide, by decide⟩

/-- C4: code bug — `writehdrnewboxes` opens
`os.path.join(pfdir, 'Header', 'w')` (passing `'w'` as a path component,
mode defaulting to `'r'`), so whenever that path is absent — always the case
for a fresh output directory — the write fails with `IOError` before
producing any output; the round trip can never re-parse a written header. -/
theorem C4_roundtrip_write_fails (h : HeaderData) (fs : List (String × List String))
    (pfdir : String) (boxes : List (List (List (List ℚ)))) (fields : List String)
    (hfs : lookupFs fs (pyJoin (pyJoin pfdir "Header") "w") = none) :
    h.writehdrnewboxes fs pfdir boxes fields = .error .ioError := by
  unfold HeaderData.writehdrnewboxes
  rw [hfs]

/-- C4 witness: the failure at the concrete header `baseHD` written into an
empty output directory. -/
theorem C4_roundtrip_write_fails_witness :
    lookupFs [] (pyJoin (pyJoin "pltout" "Header") "w") = none ∧
    baseHD.writehdrnewboxes [] "pltout" baseHD.boxes ["density"] = .error .ioError :=
  ⟨rfl, C4_roundtrip_write_fails baseHD [] "pltout" baseHD.boxes ["density"] rfl⟩

/-- C5: code bug — two parsed headers with the same `limit_level` but 2
versus 3 boxes at level 0 make `__eq__` raise `ValueError` inside
`np.allclose` (shapes `(2,2,2)` and `(3,2,2)` do not broadcast) instead of
returning `False`. -/
theorem C5_eq_raises_on_box_count_mismatch :
    hd5a.eqHD hd5b = .error .valueError ∧ hd5a.limit_level = hd5b.limit_level :=
  ⟨by decide, by decide⟩

/-- C6: the compatibility predicate is reflexive on every well-shaped parsed
header (the shape `selfWFb` — per-level boxes/cells entries present and
rectangular — holds for any header parsed from grammar-conformant files),
and returns `False` whenever the two `limit_level`s differ, before any
geometry is compared. -/
theorem C6_eq_reflexive_and_limit_gate (h h1 h2 : HeaderData)
    (hwf : selfWFb h = true) (hne : h1.limit_level ≠ h2.limit_level) :
    h.eqHD h = .ok true ∧ h1.eqHD h2 = .ok false := by
  constructor
  · unfold selfWFb at hwf
    rw [Bool.and_eq_true, Bool.and_eq_true, Bool.and_eq_true] at hwf
    obtain ⟨⟨⟨hb, hc⟩, hba⟩, hca⟩ := hwf
    rw [decide_eq_true_eq] at hb hc
    have hboxes : ∀ lv ∈ List.range (h.limit_level + 1).toNat,
        eqBoxStep h h lv = .ok true := by
      intro lv hlv
      rw [List.mem_range] at hlv
      have hlt : lv < h.boxes.length := lt_of_lt_of_le hlv hb
      unfold eqBoxStep
      rw [pyGet_nat_ok h.boxes lv hlt]
      exact allclose3_refl _ (List.all_eq_true.mp hba _ (List.get_mem _ _ _))
    have hcells : ∀ lv ∈ List.range (h.limit_level + 1).toNat,
        eqIdxStep h h lv = .ok true := by
      intro lv hlv
      rw [List.mem_range] at hlv
      have hlt : lv < h.cells.length := lt_of_lt_of_le hlv hc
      unfold eqIdxStep
      rw [pyGet_nat_ok h.cells lv hlt]
      exact allclose3_refl _ (List.all_eq_true.mp hca _ (List.get_mem _ _ _))
    unfold HeaderData.eqHD
    rw [if_neg (fun hcon : h.limit_level ≠ h.limit_level => hcon rfl)]
    rw [cmpLoop_ok_of_forall _ _ hboxes, cmpLoop_ok_of_forall _ _ hcells]
  · unfold HeaderData.eqHD
    rw [if_pos hne]

/-- C6 witness: reflexivity at the concrete parsed header `hd5a`, and the
`limit_level` gate at the pair `(hd5a, hd6b)` whose geometry agrees but whose
`limit_level`s are 0 and 1. -/
theorem C6_witness : hd5a.eqHD hd5a = .ok true ∧ hd5a.eqHD hd6b = .ok false :=
  C6_eq_reflexive_and_limit_gate hd5a hd5a hd6b (by decide) (by decide)

/-- C7: counterexample — on `hd7`, whose level-0 cells name the backing files
`"b"` then `"a"`, `bybinfile` yields the groups in the order `["a", "b"]`
(`np.unique` returns sorted values), while the first-appearance order of the
distinct filenames is `["b", "a"]`; the two orders differ, refuting the
claimed first-appearance ordering. -/
theorem C7_counterexample :
    (hd7.bybinfile 0).map (fun gs => gs.map Prod.fst) = .ok ["a", "b"] ∧
    firstOccur (hd7.cells.getD 0 default).files = ["b", "a"] ∧
    (["a", "b"] : List String) ≠ ["b", "a"] :=
  ⟨by decide, by decide, by decide⟩

/-- C7 (amended): for every level that exists, `bybinfile` yields exactly one
group per distinct backing filename, and the groups appear in strictly
increasing lexicographic (code-point) order of the distinct filenames — the
order of `np.unique` — not in first-appearance order. -/
theorem C7_one_sorted_group_per_file (h : HeaderData) (lv : ℤ) (cl : LvCells)
    (hget : pyGet h.cells lv = .ok cl) :
    ∃ gs, h.bybinfile lv = .ok gs ∧
      gs.map Prod.fst = npUnique cl.files ∧
      (gs.map Prod.fst).Pairwise (fun a b => strLt a b = true) ∧
      (gs.map Prod.fst).Nodup ∧
      (∀ f, f ∈ gs.map Prod.fst ↔ f ∈ cl.files) := by
  refine ⟨(npUnique cl.files).map (fun bf =>
      (bf,
       ((List.range cl.files.length).filter
         (fun i => cl.files.getD i "" = bf)).map (fun i => cl.offsets.getD i 0),
       ((List.range cl.files.length).filter
         (fun i => cl.files.getD i "" = bf)).map (fun i => cl.indexes.getD i []))),
    ?_, ?_, ?_, ?_, ?_⟩
  · unfold HeaderData.bybinfile
    rw [hget]
  · simp [List.map_map, Function.comp_def]
  · simp only [List.map_map, Function.comp_def, List.map_id']
    exact sorted_npUnique cl.files
  · simp only [List.map_map, Function.comp_def, List.map_id']
    exact nodup_npUnique cl.files
  · intro f
    simp only [List.map_map, Function.comp_def, List.map_id']
    exact mem_npUnique f cl.files

/-- C7 witness: the amended statement at the concrete header `hd7`. -/
theorem C7_one_sorted_group_per_file_witness :
    ∃ gs, hd7.bybinfile 0 = .ok gs ∧
      gs.map Prod.fst = npUnique ["b", "a"] ∧
      (gs.map Prod.fst).Pairwise (fun a b => strLt a b = true) ∧
      (gs.map Prod.fst).Nodup ∧
      (∀ f, f ∈ gs.map Prod.fst ↔ f ∈ (["b", "a"] : List String)) :=
  C7_one_sorted_group_per_file hd7 0
    ⟨[[[0, 0], [3, 7]], [[4, 0], [7, 7]]], ["b", "a"], [10, 20]⟩ rfl

/-- C8: confirmed — when the third line of a `_H` file parses to an integer
`k` different from the header's field count (`len(self.fields)`, which
equals the declared `nvars` since field names are unique), the per-level
parse of `read_cell_headers` fails with the assertion the spec names
`SchemaMismatch`, and it does so for every possible remainder of the file —
no index window is ever parsed. -/
theorem C8_schema_mismatch_before_windows (pfile cell_path l1 l2 l3 : String)
    (rest : List String) (fields : List (String × ℤ)) (nvars k : ℤ)
    (hlen : (fields.length : ℤ) = nvars)
    (hk : pyInt? l3 = .ok k) (hne : k ≠ nvars) :
    read_cell_headers_level pfile fields cell_path (l1 :: l2 :: l3 :: rest)
      = .error .assertionError := by
  have hne' : ¬ (k = (fields.length : ℤ)) := fun hc => hne (hc.trans hlen)
  simp [read_cell_headers_level, readline, hk, hne']

/-- C8 witness: a `_H` file whose field-count line reads 3 while the header
declares 4 (distinct) fields. -/
theorem C8_schema_mismatch_witness :
    ((([("a", 0), ("b", 1), ("c", 2), ("d", 3)] : List (String × ℤ)).length : ℤ) = 4) ∧
    pyInt? "3" = .ok 3 ∧ ((3 : ℤ) ≠ 4) ∧
    read_cell_headers_level "plt" [("a", 0), ("b", 1), ("c", 2), ("d", 3)]
      "Level_0/Cell" ["x", "y", "3"] = .error .assertionError :=
  ⟨rfl, rfl, by decide,
   C8_schema_mismatch_before_windows "plt" "Level_0/Cell" "x" "y" "3" []
     [("a", 0), ("b", 1), ("c", 2), ("d", 3)] 4 3 rfl rfl (by decide)⟩

/-- C9: code bug — on the spec's own 2-D scenario (`baseHD`: geo_low=[0,0],
geo_high=[1,1], grid_size=[8,8], dx=[0.125,0.125], single window
((0,0),(7,7))), `boxesfromindexes` raises `IndexError` at `self.dx[lv][2]` —
the function is hard-coded for 3 axes — instead of returning the physical
box [[0,1],[0,1]]. -/
theorem C9_2d_reconstruction_raises :
    baseHD.boxesfromindexes [[[[0, 0], [7, 7]]]] = .error .indexError := by decide

/-- C10: confirmed — every group `(bf, offs, idxs)` yielded by `bybinfile`
is indexed by a strictly increasing list of positions, exactly the positions
of the level's cell sequence whose file equals `bf`, and `offs`/`idxs` are
the offsets and index windows stored at those positions in their original
relative order. -/
theorem C10_groups_preserve_positions (h : HeaderData) (lv : ℤ) (cl : LvCells)
    (hget : pyGet h.cells lv = .ok cl)
    (hoff : cl.offsets.length = cl.files.length)
    (hidx : cl.indexes.length = cl.files.length)
    (gs : List (String × List ℤ × List (List (List ℤ))))
    (hgs : h.bybinfile lv = .ok gs) :
    ∀ g ∈ gs, ∃ ps : List ℕ,
      ps.Pairwise (· < ·) ∧
      (∀ i, i ∈ ps ↔ i < cl.files.length ∧ cl.files.getD i "" = g.1) ∧
      (∀ i ∈ ps, i < cl.offsets.length ∧ i < cl.indexes.length) ∧
      g.2.1 = ps.map (fun i => cl.offsets.getD i 0) ∧
      g.2.2 = ps.map (fun i => cl.indexes.getD i []) := by
  unfold HeaderData.bybinfile at hgs
  rw [hget] at hgs
  simp only [Except.ok.injEq] at hgs
  subst hgs
  intro g hg
  rw [List.mem_map] at hg
  obtain ⟨bf, hbf, hgbf⟩ := hg
  subst hgbf
  refine ⟨(List.range cl.files.length).filter (fun i => cl.files.getD i "" = bf),
    (List.pairwise_lt_range _).filter _, ?_, ?_, rfl, rfl⟩
  · intro i
    simp [List.mem_filter, List.mem_range]
  · intro i hi
    rw [List.mem_filter, List.mem_range] at hi
    exact ⟨hoff ▸ hi.1, hidx ▸ hi.1⟩

/-- C10 witness: the position property at the concrete header `hd7`, for the
group of the file `"a"`. -/
theorem C10_groups_preserve_positions_witness :
    ∃ ps : List ℕ,
      ps.Pairwise (· < ·) ∧
      (∀ i, i ∈ ps ↔ i < (["b", "a"] : List String).length ∧
          (["b", "a"] : List String).getD i "" = "a") ∧
      (∀ i ∈ ps, i < ([10, 20] : List ℤ).length ∧
          i < ([[[0, 0], [3, 7]], [[4, 0], [7, 7]]] : List (List (List ℤ))).length) ∧
      ([20] : List ℤ) = ps.map (fun i => ([10, 20] : List ℤ).getD i 0) ∧
      ([[[4, 0], [7, 7]]] : List (List (List ℤ))) = ps.map (fun i =>
          ([[[0, 0], [3, 7]], [[4, 0], [7, 7]]] : List (List (List ℤ))).getD i []) :=
  C10_groups_preserve_positions hd7 0
    ⟨[[[0, 0], [3, 7]], [[4, 0], [7, 7]]], ["b", "a"], [10, 20]⟩ rfl rfl rfl
    [("a", [20], [[[4, 0], [7, 7]]]), ("b", [10], [[[0, 0], [3, 7]]])] (by decide)
    ("a", [20], [[[4, 0], [7, 7]]]) (by decide)
